import Mathlib

/-!
Shallow embedding of `src/src/node-boilerplate/common.cc` from the
node-scrypt repository: the boundary-marshalling layer consisting of a
parameter validator (`CheckScryptParameters` / `ScryptParams::operator=`),
an error translator (the two `MakeErrorObject` overloads plus
`ScryptErrorDescr`), and a buffer bridge (`ProduceBuffer`).

Machine integers are modelled as `Int` (C `int`); JavaScript values are
modelled by a small inductive that distinguishes exactly the observations
the source makes (`IsNumber`, `IsString`, `IsStringObject`,
`Buffer::HasInstance`).  The host runtime's string codec
(`node::DecodeBytes` / `node::DecodeWrite`) is an external collaborator of
the repository and is passed in as an explicit parameter.
-/

namespace NodeScrypt

/-- Modelled from the spec: `common.h` is not part of the sources; it
declares the five error category codes (`ADDONARG`, `JSARG`, `PARMOBJ`,
`CONFIG`, `SCRYPT`) used by `common.cc`.  They are modelled as five
distinct non-zero integers, matching the spec's five defined categories
AddonArgument, WrapperArgument, ParameterObject, ConfigObject,
NativeLibrary. -/
def ADDONARG : Int := 1

/-- Modelled from the spec: see `ADDONARG`. -/
def JSARG : Int := 2

/-- Modelled from the spec: see `ADDONARG`. -/
def PARMOBJ : Int := 3

/-- Modelled from the spec: see `ADDONARG`. -/
def CONFIG : Int := 4

/-- Modelled from the spec: see `ADDONARG`. -/
def SCRYPT : Int := 5

/-- `ScryptErrorDescr` from `common.cc` lines 44-77: the fixed lookup
table mapping a native scrypt status code to its description.  Note the
source spells the default case "error unkown". -/
def ScryptErrorDescr (error : Int) : String :=
  if error = 0 then "success"
  else if error = 1 then "getrlimit or sysctl(hw.usermem) failed"
  else if error = 2 then "clock_getres or clock_gettime failed"
  else if error = 3 then "error computing derived key"
  else if error = 4 then "could not read salt from /dev/urandom"
  else if error = 5 then "error in OpenSSL"
  else if error = 6 then "malloc failed"
  else if error = 7 then "data is not a valid scrypt-encrypted block"
  else if error = 8 then "unrecognized scrypt format"
  else if error = 9 then "decrypting file would take too much memory"
  else if error = 10 then "decrypting file would take too long"
  else if error = 11 then "password is incorrect"
  else if error = 12 then "error writing output file"
  else if error = 13 then "error reading input file"
  else "error unkown"

/-- The error object built by the general `MakeErrorObject` overload:
fields `err_code` and `err_message` (`common.cc` lines 170-171). -/
structure ErrorObject where
  err_code : Int
  err_message : String
deriving DecidableEq, Repr

/-- The fixed message the general `MakeErrorObject` overload installs in
its default branch (`common.cc` line 168). -/
def unknownInternalErrorMessage : String :=
  "Unknown internal error - please report this error to make this module better. Details about error reporting can be found at the GitHub repo: https://github.com/barrysteyn/node-scrypt#report-errors"

/-- The general `MakeErrorObject(int, std::string&)` overload from
`common.cc` lines 144-177.  The C++ function both returns a value (a JSON
error object, or `Null` when `errorCode` is zero) and mutates the
caller's `errorMessage` string through the reference; the model returns
the pair (returned value, message after the call).  `none` models the
`Null` return. -/
def MakeErrorObject (errorCode : Int) (errorMessage : String) :
    Option ErrorObject × String :=
  if errorCode ≠ 0 then
    let updated : Int × String :=
      if errorCode = ADDONARG then
        (errorCode, "Module addon argument error: " ++ errorMessage)
      else if errorCode = JSARG then
        (errorCode, "JavaScript wrapper argument error: " ++ errorMessage)
      else if errorCode = PARMOBJ then
        (errorCode, "Scrypt parameter object error: " ++ errorMessage)
      else if errorCode = CONFIG then
        (errorCode, "Scrypt config object error: " ++ errorMessage)
      else
        (500, unknownInternalErrorMessage)
    (some ⟨updated.1, updated.2⟩, updated.2)
  else
    (none, errorMessage)

/-- The error object built by the scrypt-specific `MakeErrorObject`
overload: fields `err_code`, `err_message`, `scrypt_err_code`,
`scrypt_err_message` (`common.cc` lines 187-190). -/
structure ScryptErrorObject where
  err_code : Int
  err_message : String
  scrypt_err_code : Int
  scrypt_err_message : String
deriving DecidableEq, Repr

/-- The scrypt-specific `MakeErrorObject(int, int)` overload from
`common.cc` lines 182-195 (the source asserts `errorCode == SCRYPT`).
`none` models the `Null` return taken when `scryptErrorCode` is zero. -/
def MakeErrorObjectScrypt (errorCode scryptErrorCode : Int) :
    Option ScryptErrorObject :=
  if scryptErrorCode ≠ 0 then
    some ⟨errorCode, "Scrypt error", scryptErrorCode,
          ScryptErrorDescr scryptErrorCode⟩
  else
    none

/-- A JavaScript value as observed by `CheckScryptParameters` /
`ScryptParams::operator=`: the source only asks `IsNumber` and, on
numbers, reads `ToNumber()->Value()`, a double.  Every finite double is
a rational number and the source only stores and converts the value
(never computes with it), so JavaScript numerics are modelled as
rationals. -/
inductive JSVal
  | num (v : Rat)
  | nonNum
deriving DecidableEq, Repr

/-- `v8::Value::IsNumber`. -/
def JSVal.isNumber : JSVal → Bool
  | .num _ => true
  | .nonNum => false

/-- `ToNumber()->Value()` as used on validated (numeric) values; on a
non-number the source never reads it after validation, so the model
returns 0 there. -/
def JSVal.toNumber : JSVal → Rat
  | .num v => v
  | .nonNum => 0

/-- The caller's parameter object as observed by the validator: the
source only queries the three properties "N", "r", "p" via `Has` and
`Get`.  `none` models an absent property. -/
structure ParamsObject where
  N : Option JSVal
  r : Option JSVal
  p : Option JSVal
deriving DecidableEq, Repr

/-- `obj->Get(name)`: a present property yields its value; `Get` on an
absent property yields `undefined`, which is not a number. -/
def jsGet : Option JSVal → JSVal
  | some v => v
  | none => .nonNum

/-- `CheckScryptParameters` from `common.cc` lines 94-130: returns the
error code (0 on success, `PARMOBJ` on failure) together with the error
message written through the `errMessage` reference (`none` when the
function returns without writing it). -/
def CheckScryptParameters (obj : ParamsObject) : Int × Option String :=
  if ¬ obj.N.isSome then (PARMOBJ, some "N value is not present")
  else if ¬ obj.r.isSome then (PARMOBJ, some "r value is not present")
  else if ¬ obj.p.isSome then (PARMOBJ, some "p value is not present")
  else if ¬ (jsGet obj.N).isNumber then (PARMOBJ, some "N must be a numeric value")
  else if ¬ (jsGet obj.r).isNumber then (PARMOBJ, some "r must be a numeric value")
  else if ¬ (jsGet obj.p).isNumber then (PARMOBJ, some "p must be a numeric value")
  else (0, none)

/-- Truncation of a rational toward zero, as the C++ float-to-integral
conversion performs before range reduction (`Int.div` is T-division). -/
def ratTrunc (q : Rat) : Int :=
  q.num.tdiv (q.den : Int)

/-- Conversion of an extracted double value to an unsigned integer field
of the given bit width: truncate toward zero, then reduce modulo
`2 ^ width`.  A conversion whose truncated value is out of the target's
range is undefined behaviour in C++; the model follows the spec's
declared widths with the common wrap-around behaviour.  In-range values
convert exactly. -/
def toUnsigned (width : Nat) (q : Rat) : Nat :=
  (ratTrunc q % (2 : Int) ^ width).toNat

/-- Modelled from the spec: the `ScryptParams` field declarations live
in `common.h`, which is not part of the sources; the spec's data model
declares `N` unsigned 64-bit and `r`, `p` unsigned 32-bit.  Fields hold
the converted values, so `N < 2 ^ 64` and `r, p < 2 ^ 32`. -/
structure ScryptParams where
  N : Nat
  r : Nat
  p : Nat
deriving DecidableEq, Repr

/-- `ScryptParams::operator=` from `common.cc` lines 135-139: extract
`N`, `r`, `p` from the caller object, converting each double to its
unsigned field type. -/
def ScryptParams.assign (obj : ParamsObject) : ScryptParams :=
  ⟨toUnsigned 64 (jsGet obj.N).toNumber,
   toUnsigned 32 (jsGet obj.r).toNumber,
   toUnsigned 32 (jsGet obj.p).toNumber⟩

/-- The `node::encoding` enumeration as used by `ProduceBuffer`; the
source only compares against `node::BUFFER`. -/
inductive NodeEncoding
  | ASCII
  | UTF8
  | BASE64
  | UCS2
  | BINARY
  | HEX
  | BUFFER
deriving DecidableEq, Repr

/-- A JavaScript argument as observed by `ProduceBuffer`: the source asks
`IsString`, `IsStringObject` and `node::Buffer::HasInstance`, reads the
byte contents of buffers, and decodes strings.  `other` stands for any
value that is none of these (for which all three predicates are false). -/
inductive JSArg
  | str (s : String)
  | strObj (s : String)
  | buffer (data : List Nat)
  | other
deriving DecidableEq, Repr

/-- `argument->IsString()`. -/
def JSArg.isString : JSArg → Bool
  | .str _ => true
  | _ => false

/-- `argument->IsStringObject()`. -/
def JSArg.isStringObject : JSArg → Bool
  | .strObj _ => true
  | _ => false

/-- `node::Buffer::HasInstance(argument->ToObject())`: only an actual
buffer satisfies it (`ToObject` on a string yields a String object, not
a Buffer). -/
def JSArg.isBufferInstance : JSArg → Bool
  | .buffer _ => true
  | _ => false

/-- The string content of a string-like argument. -/
def JSArg.stringContent : JSArg → Option String
  | .str s => some s
  | .strObj s => some s
  | _ => none

/-- `node::Buffer::Length(argument)`; only ever applied to buffers in the
source. -/
def JSArg.bufferLength : JSArg → Nat
  | .buffer data => data.length
  | _ => 0

/-- The host runtime's string codec (`node::DecodeBytes` /
`node::DecodeWrite`), an external collaborator of the repository invoked
as a black box by `ProduceBuffer`.  `decodeBytes enc s` is the byte
length the host computes for string `s` under encoding `enc`;
`decodeWrite n enc s` is the byte sequence the host writes into a buffer
of size `n` (its length is the `dataWritten` return value). -/
structure HostCodec where
  decodeBytes : NodeEncoding → String → Nat
  decodeWrite : Nat → NodeEncoding → String → List Nat

/-- Outcome of `ProduceBuffer`: the source returns 0 and leaves the
(possibly replaced) argument in the by-reference parameter, or returns 1
after writing `errorMessage`. -/
inductive ProduceResult
  | ok (argument : JSArg)
  | err (message : String)
deriving DecidableEq, Repr

/-- `ProduceBuffer` from `common.cc` lines 232-276, parameterised by the
host codec.  Mirrors the source's control flow: the raw-buffer fast path
(lines 237-239), the type check (241-244), the raw-buffer requirement
(246-249), the string-decoding block (252-268) including the
written/expected length comparison (262-265), and the final emptiness
check (270-273). -/
def ProduceBuffer (codec : HostCodec) (argument : JSArg) (argName : String)
    (encoding : NodeEncoding) (checkEmpty : Bool) : ProduceResult :=
  if encoding = .BUFFER ∧ argument.isBufferInstance then
    .ok argument
  else if ¬ (argument.isString ∨ argument.isStringObject ∨ argument.isBufferInstance) then
    .err (argName ++ " must be a buffer or string")
  else if encoding = .BUFFER ∧ ¬ argument.isBufferInstance then
    .err (argName ++ " must be a buffer as specified by config")
  else
    match argument.stringContent with
    | some s =>
      let dataLength := codec.decodeBytes encoding s
      let written := codec.decodeWrite dataLength encoding s
      if written.length ≠ dataLength then
        .err (argName ++ " is probably encoded differently to what was specified")
      else
        let argument := JSArg.buffer written
        if checkEmpty ∧ argument.bufferLength = 0 then
          .err (argName ++ " cannot be empty")
        else
          .ok argument
    | none =>
      if checkEmpty ∧ argument.bufferLength = 0 then
        .err (argName ++ " cannot be empty")
      else
        .ok argument

/-- A concrete host codec used for closed instances: the Latin-1 style
single-byte codec (node's `BINARY` encoding): one byte per character,
the low 8 bits of the code point. -/
def latin1Codec : HostCodec where
  decodeBytes := fun _ s => s.length
  decodeWrite := fun n _ s => (s.data.map (fun c => c.toNat % 256)).take n

/-- Decoding a byte sequence back to a host string under the Latin-1
style codec. -/
def latin1Decode : List Nat → String :=
  fun bytes => String.mk (bytes.map Char.ofNat)

/-- C1 counterexample: at native code 14 the nested native message
produced by the scrypt-specific translator is "error unkown" (the
source's spelling), not "error unknown" as the claim states. -/
theorem C1_counterexample :
    (MakeErrorObjectScrypt SCRYPT 14).map (fun e => e.scrypt_err_message) =
      some "error unkown" ∧
    "error unkown" ≠ "error unknown" := by
  decide

/-- C1 (amended): for every native status code that is negative or at
least 14, the scrypt-specific translator produces an error object whose
nested native message is exactly "error unkown" (the source's spelling
of the default table entry) and whose nested native code equals the
incoming code unchanged. -/
theorem C1_out_of_table_code (c : Int) (h : c < 0 ∨ 14 ≤ c) :
    MakeErrorObjectScrypt SCRYPT c =
      some ⟨SCRYPT, "Scrypt error", c, "error unkown"⟩ := by
  have h0 : c ≠ 0 := by omega
  have h1 : c ≠ 1 := by omega
  have h2 : c ≠ 2 := by omega
  have h3 : c ≠ 3 := by omega
  have h4 : c ≠ 4 := by omega
  have h5 : c ≠ 5 := by omega
  have h6 : c ≠ 6 := by omega
  have h7 : c ≠ 7 := by omega
  have h8 : c ≠ 8 := by omega
  have h9 : c ≠ 9 := by omega
  have h10 : c ≠ 10 := by omega
  have h11 : c ≠ 11 := by omega
  have h12 : c ≠ 12 := by omega
  have h13 : c ≠ 13 := by omega
  simp [MakeErrorObjectScrypt, ScryptErrorDescr,
        h0, h1, h2, h3, h4, h5, h6, h7, h8, h9, h10, h11, h12, h13]

/-- C1 witness: the amended statement at the concrete code 14. -/
theorem C1_out_of_table_code_witness :
    MakeErrorObjectScrypt SCRYPT 14 =
      some ⟨SCRYPT, "Scrypt error", 14, "error unkown"⟩ :=
  C1_out_of_table_code 14 (Or.inr (by norm_num))

/-- C3: for every native status code in 1..13, the scrypt-specific
translator produces an error object with top-level message "Scrypt
error", the incoming code as nested native code, and exactly the table
text of the spec's 14-entry table as nested native message. -/
theorem C3_table_codes :
    MakeErrorObjectScrypt SCRYPT 1 =
      some ⟨SCRYPT, "Scrypt error", 1, "getrlimit or sysctl(hw.usermem) failed"⟩ ∧
    MakeErrorObjectScrypt SCRYPT 2 =
      some ⟨SCRYPT, "Scrypt error", 2, "clock_getres or clock_gettime failed"⟩ ∧
    MakeErrorObjectScrypt SCRYPT 3 =
      some ⟨SCRYPT, "Scrypt error", 3, "error computing derived key"⟩ ∧
    MakeErrorObjectScrypt SCRYPT 4 =
      some ⟨SCRYPT, "Scrypt error", 4, "could not read salt from /dev/urandom"⟩ ∧
    MakeErrorObjectScrypt SCRYPT 5 =
      some ⟨SCRYPT, "Scrypt error", 5, "error in OpenSSL"⟩ ∧
    MakeErrorObjectScrypt SCRYPT 6 =
      some ⟨SCRYPT, "Scrypt error", 6, "malloc failed"⟩ ∧
    MakeErrorObjectScrypt SCRYPT 7 =
      some ⟨SCRYPT, "Scrypt error", 7, "data is not a valid scrypt-encrypted block"⟩ ∧
    MakeErrorObjectScrypt SCRYPT 8 =
      some ⟨SCRYPT, "Scrypt error", 8, "unrecognized scrypt format"⟩ ∧
    MakeErrorObjectScrypt SCRYPT 9 =
      some ⟨SCRYPT, "Scrypt error", 9, "decrypting file would take too much memory"⟩ ∧
    MakeErrorObjectScrypt SCRYPT 10 =
      some ⟨SCRYPT, "Scrypt error", 10, "decrypting file would take too long"⟩ ∧
    MakeErrorObjectScrypt SCRYPT 11 =
      some ⟨SCRYPT, "Scrypt error", 11, "password is incorrect"⟩ ∧
    MakeErrorObjectScrypt SCRYPT 12 =
      some ⟨SCRYPT, "Scrypt error", 12, "error writing output file"⟩ ∧
    MakeErrorObjectScrypt SCRYPT 13 =
      some ⟨SCRYPT, "Scrypt error", 13, "error reading input file"⟩ := by
  decide

/-- C4: both translator overloads return the absent-error value (the
model's `none`, the source's `Null`) whenever the incoming code is
zero. -/
theorem C4_zero_is_no_error :
    (∀ msg : String, (MakeErrorObject 0 msg).1 = none) ∧
    MakeErrorObjectScrypt SCRYPT 0 = none := by
  constructor
  · intro msg
    simp [MakeErrorObject]
  · simp [MakeErrorObjectScrypt]

/-- C5: the general translator is total — every non-zero integer
category outside the five defined categories yields an error object with
numeric code forced to 500 and the fixed unknown-internal-error message
(the message beginning "Unknown internal error"). -/
theorem C5_unknown_category_total (c : Int) (msg : String)
    (hnz : c ≠ 0)
    (hout : c ≠ ADDONARG ∧ c ≠ JSARG ∧ c ≠ PARMOBJ ∧ c ≠ CONFIG ∧ c ≠ SCRYPT) :
    (MakeErrorObject c msg).1 = some ⟨500, unknownInternalErrorMessage⟩ := by
  obtain ⟨h1, h2, h3, h4, h5⟩ := hout
  simp [MakeErrorObject, hnz, h1, h2, h3, h4]

/-- C5 witness: the general translator at the concrete out-of-range
category 42. -/
theorem C5_unknown_category_total_witness :
    (MakeErrorObject 42 "boom").1 = some ⟨500, unknownInternalErrorMessage⟩ :=
  C5_unknown_category_total 42 "boom" (by norm_num)
    (by refine ⟨?_, ?_, ?_, ?_, ?_⟩ <;> decide)

/-- C10 counterexample: the general translator does mutate its caller's
message — after calling it with category `ADDONARG` and message "x", the
caller's message is the label-prefixed string, not "x". -/
theorem C10_counterexample :
    (MakeErrorObject ADDONARG "x").2 = "Module addon argument error: x" ∧
    "Module addon argument error: x" ≠ "x" := by
  decide

/-- C10 (amended): the general translator is a deterministic function of
its two inputs whose only observable effects are the returned value and
an update of the caller's message: the message is unchanged when the
category is zero, becomes the category-label-prefixed original for the
four known categories, and becomes the fixed unknown-internal-error text
for any other category. -/
theorem C10_message_effect (msg : String) :
    (MakeErrorObject 0 msg).2 = msg ∧
    (MakeErrorObject ADDONARG msg).2 = "Module addon argument error: " ++ msg ∧
    (MakeErrorObject JSARG msg).2 = "JavaScript wrapper argument error: " ++ msg ∧
    (MakeErrorObject PARMOBJ msg).2 = "Scrypt parameter object error: " ++ msg ∧
    (MakeErrorObject CONFIG msg).2 = "Scrypt config object error: " ++ msg ∧
    (∀ c : Int, c ≠ 0 → c ≠ ADDONARG → c ≠ JSARG → c ≠ PARMOBJ → c ≠ CONFIG →
      (MakeErrorObject c msg).2 = unknownInternalErrorMessage) := by
  refine ⟨?_, ?_, ?_, ?_, ?_, ?_⟩
  · simp [MakeErrorObject]
  · simp [MakeErrorObject, ADDONARG]
  · simp [MakeErrorObject, JSARG, ADDONARG]
  · simp [MakeErrorObject, PARMOBJ, ADDONARG, JSARG]
  · simp [MakeErrorObject, CONFIG, ADDONARG, JSARG, PARMOBJ]
  · intro c hc0 hc1 hc2 hc3 hc4
    simp [MakeErrorObject, hc0, hc1, hc2, hc3, hc4]

/-- C10 witness: the amended statement at concrete inputs, including the
catch-all category 9. -/
theorem C10_message_effect_witness :
    (MakeErrorObject 0 "x").2 = "x" ∧
    (MakeErrorObject 9 "x").2 = unknownInternalErrorMessage :=
  ⟨(C10_message_effect "x").1,
   (C10_message_effect "x").2.2.2.2.2 9 (by norm_num) (by decide) (by decide)
     (by decide) (by decide)⟩

/-- C6: whenever at least one of N, r, p is missing or non-numeric, the
validator returns a `PARMOBJ`-category error naming exactly the first
violated check in the fixed order (N present, r present, p present, N
numeric, r numeric, p numeric); the six conjuncts cover every such
object, and each fixes the message independently of any later
violation. -/
theorem C6_first_violation_wins (obj : ParamsObject) :
    (obj.N = none →
      CheckScryptParameters obj = (PARMOBJ, some "N value is not present")) ∧
    (obj.N.isSome → obj.r = none →
      CheckScryptParameters obj = (PARMOBJ, some "r value is not present")) ∧
    (obj.N.isSome → obj.r.isSome → obj.p = none →
      CheckScryptParameters obj = (PARMOBJ, some "p value is not present")) ∧
    (obj.N.isSome → obj.r.isSome → obj.p.isSome → ¬ (jsGet obj.N).isNumber →
      CheckScryptParameters obj = (PARMOBJ, some "N must be a numeric value")) ∧
    (obj.N.isSome → obj.r.isSome → obj.p.isSome → (jsGet obj.N).isNumber →
      ¬ (jsGet obj.r).isNumber →
      CheckScryptParameters obj = (PARMOBJ, some "r must be a numeric value")) ∧
    (obj.N.isSome → obj.r.isSome → obj.p.isSome → (jsGet obj.N).isNumber →
      (jsGet obj.r).isNumber → ¬ (jsGet obj.p).isNumber →
      CheckScryptParameters obj = (PARMOBJ, some "p must be a numeric value")) := by
  refine ⟨?_, ?_, ?_, ?_, ?_, ?_⟩ <;> intros <;> simp_all [CheckScryptParameters]

/-- C6 witness: an object missing N (and with a non-numeric p) is
reported with the first violation only. -/
theorem C6_first_violation_wins_witness :
    CheckScryptParameters ⟨none, some (.num 8), some .nonNum⟩ =
      (PARMOBJ, some "N value is not present") :=
  (C6_first_violation_wins ⟨none, some (.num 8), some .nonNum⟩).1 rfl

/-- Helper: the double-to-unsigned conversion is exact on a nonnegative
integral rational below the width bound. -/
theorem toUnsigned_eq_of_integral (q : Rat) (w : Nat)
    (hden : q.den = 1) (h0 : 0 ≤ q) (hlt : q < 2 ^ w) :
    ((toUnsigned w q : Nat) : Rat) = q := by
  have hnum : (q.num : Rat) = q := by
    conv_rhs => rw [← Rat.num_div_den q]
    rw [hden]
    simp
  have h0n : 0 ≤ q.num := Rat.num_nonneg.mpr h0
  have hltn : q.num < 2 ^ w := by
    have : (q.num : Rat) < ((2 ^ w : Int) : Rat) := by
      rw [hnum]
      push_cast
      exact hlt
    exact_mod_cast this
  have hval : toUnsigned w q = q.num.toNat := by
    unfold toUnsigned ratTrunc
    rw [hden, Nat.cast_one, Int.tdiv_one, Int.emod_eq_of_lt h0n hltn]
  rw [hval, ← hnum]
  exact_mod_cast Int.toNat_of_nonneg h0n

/-- C7 counterexample: at the parameter object {N:16384, r:8, p:3/2}
(3/2 is an exact double) validation succeeds, yet extraction truncates
p to 1 — the extracted cost parameter does not equal the object's
numeric field value. -/
theorem C7_counterexample :
    CheckScryptParameters
        ⟨some (.num 16384), some (.num 8), some (.num (3 / 2))⟩ = (0, none) ∧
    ((ScryptParams.assign
        ⟨some (.num 16384), some (.num 8), some (.num (3 / 2))⟩).p : Rat) =
      1 ∧
    (1 : Rat) ≠ 3 / 2 := by
  refine ⟨by decide, ?_, by norm_num⟩
  norm_num [ScryptParams.assign, jsGet, JSVal.toNumber, toUnsigned, ratTrunc]
  decide

/-- C7 (amended): for every object whose N, r and p are all present and
numeric, the validator succeeds (code 0, no message written); and
whenever the three numeric values are integral and within the declared
unsigned field widths (N below 2^64, r and p below 2^32, all
nonnegative), extraction yields cost parameters equal to the object's
numeric field values — outside that range the double-to-unsigned
conversion truncates or wraps, as the counterexample shows. -/
theorem C7_valid_object (obj : ParamsObject) (n r p : Rat)
    (hN : obj.N = some (.num n)) (hr : obj.r = some (.num r))
    (hp : obj.p = some (.num p)) :
    CheckScryptParameters obj = (0, none) ∧
    (n.den = 1 → 0 ≤ n → n < 2 ^ 64 →
     r.den = 1 → 0 ≤ r → r < 2 ^ 32 →
     p.den = 1 → 0 ≤ p → p < 2 ^ 32 →
      ((ScryptParams.assign obj).N : Rat) = n ∧
      ((ScryptParams.assign obj).r : Rat) = r ∧
      ((ScryptParams.assign obj).p : Rat) = p) := by
  constructor
  · simp [CheckScryptParameters, hN, hr, hp, jsGet, JSVal.isNumber]
  · intro hdn h0n hltn hdr h0r hltr hdp h0p hltp
    refine ⟨?_, ?_, ?_⟩ <;>
      simp only [ScryptParams.assign, hN, hr, hp, jsGet, JSVal.toNumber]
    · exact toUnsigned_eq_of_integral n 64 hdn h0n hltn
    · exact toUnsigned_eq_of_integral r 32 hdr h0r hltr
    · exact toUnsigned_eq_of_integral p 32 hdp h0p hltp

/-- C7 witness: the spec's example object {N:16384, r:8, p:1}. -/
theorem C7_valid_object_witness :
    CheckScryptParameters ⟨some (.num 16384), some (.num 8), some (.num 1)⟩ =
      (0, none) ∧
    ((ScryptParams.assign
        ⟨some (.num 16384), some (.num 8), some (.num 1)⟩).N : Rat) = 16384 ∧
    ((ScryptParams.assign
        ⟨some (.num 16384), some (.num 8), some (.num 1)⟩).r : Rat) = 8 ∧
    ((ScryptParams.assign
        ⟨some (.num 16384), some (.num 8), some (.num 1)⟩).p : Rat) = 1 := by
  have h := C7_valid_object ⟨some (.num 16384), some (.num 8), some (.num 1)⟩
    16384 8 1 rfl rfl rfl
  exact ⟨h.1, h.2 (by decide) (by norm_num) (by norm_num) (by decide)
    (by norm_num) (by norm_num) (by decide) (by norm_num) (by norm_num)⟩

/-- C2 counterexample: in raw-buffer mode a zero-length host buffer with
`checkEmpty` set is accepted as-is — the early return on the raw-buffer
fast path skips the emptiness check, so the call does not fail with
"password cannot be empty" as the claim states. -/
theorem C2_counterexample :
    ProduceBuffer latin1Codec (.buffer []) "password" .BUFFER true =
      .ok (.buffer []) ∧
    ProduceBuffer latin1Codec (.buffer []) "password" .BUFFER true ≠
      .err ("password" ++ " cannot be empty") := by
  decide

/-- C2 (amended): with `checkEmpty` set, a zero-length resolved buffer
fails with "<argName> cannot be empty" in every case except the
raw-buffer fast path — when the encoding is raw-buffer mode and the
argument already is a host buffer, the call returns that buffer as-is
(even when empty), skipping the emptiness check. -/
theorem C2_empty_check (codec : HostCodec) (argName : String)
    (encoding : NodeEncoding) :
    (∀ data : List Nat,
      ProduceBuffer codec (.buffer data) argName .BUFFER true = .ok (.buffer data)) ∧
    (∀ data : List Nat, encoding ≠ .BUFFER → data.length = 0 →
      ProduceBuffer codec (.buffer data) argName encoding true =
        .err (argName ++ " cannot be empty")) ∧
    (∀ (arg : JSArg) (s : String), arg.stringContent = some s →
      encoding ≠ .BUFFER →
      (codec.decodeWrite (codec.decodeBytes encoding s) encoding s).length =
        codec.decodeBytes encoding s →
      codec.decodeBytes encoding s = 0 →
      ProduceBuffer codec arg argName encoding true =
        .err (argName ++ " cannot be empty")) := by
  refine ⟨?_, ?_, ?_⟩
  · intro data
    simp [ProduceBuffer, JSArg.isBufferInstance]
  · intro data henc hlen
    simp [ProduceBuffer, JSArg.isBufferInstance, JSArg.isString,
          JSArg.isStringObject, JSArg.stringContent, JSArg.bufferLength,
          henc, hlen]
  · intro arg s hs henc hw hzero
    rw [hzero] at hw
    have hwnil : codec.decodeWrite 0 encoding s = [] :=
      List.eq_nil_of_length_eq_zero hw
    cases arg <;> simp [JSArg.stringContent] at hs <;>
      subst hs <;>
      simp [ProduceBuffer, JSArg.isBufferInstance, JSArg.isString,
            JSArg.isStringObject, JSArg.stringContent, JSArg.bufferLength,
            henc, hzero, hwnil]

/-- C2 witness: the amended statement at concrete inputs — an empty
borrowed buffer in a non-raw encoding fails, and an empty string under
the concrete single-byte codec fails. -/
theorem C2_empty_check_witness :
    ProduceBuffer latin1Codec (.buffer []) "salt" .BINARY true =
      .err ("salt" ++ " cannot be empty") ∧
    ProduceBuffer latin1Codec (.str "") "salt" .BINARY true =
      .err ("salt" ++ " cannot be empty") :=
  ⟨(C2_empty_check latin1Codec "salt" .BINARY).2.1 [] (by decide) rfl,
   (C2_empty_check latin1Codec "salt" .BINARY).2.2 (.str "") "" rfl
     (by decide) rfl rfl⟩

/-- C8: an argument that is neither string-like nor a host buffer fails
with "<argName> must be a buffer or string" under every encoding, and a
string-like argument under raw-buffer mode fails with "<argName> must be
a buffer as specified by config". -/
theorem C8_type_check_errors (codec : HostCodec) (argName : String)
    (checkEmpty : Bool) :
    (∀ encoding : NodeEncoding,
      ProduceBuffer codec .other argName encoding checkEmpty =
        .err (argName ++ " must be a buffer or string")) ∧
    (∀ (arg : JSArg) (s : String), arg.stringContent = some s →
      ProduceBuffer codec arg argName .BUFFER checkEmpty =
        .err (argName ++ " must be a buffer as specified by config")) := by
  constructor
  · intro encoding
    simp [ProduceBuffer, JSArg.isBufferInstance, JSArg.isString,
          JSArg.isStringObject]
  · intro arg s hs
    cases arg <;> simp [JSArg.stringContent] at hs <;>
      simp [ProduceBuffer, JSArg.isBufferInstance, JSArg.isString,
            JSArg.isStringObject]

/-- C8 witness: the two failures at concrete inputs. -/
theorem C8_type_check_errors_witness :
    ProduceBuffer latin1Codec .other "key" .UTF8 true =
      .err ("key" ++ " must be a buffer or string") ∧
    ProduceBuffer latin1Codec (.str "x") "key" .BUFFER true =
      .err ("key" ++ " must be a buffer as specified by config") :=
  ⟨(C8_type_check_errors latin1Codec "key" true).1 .UTF8,
   (C8_type_check_errors latin1Codec "key" true).2 (.str "x") "x" rfl⟩

/-- Helper: on the string-decoding path, a successful `ProduceBuffer`
replaces the argument with the buffer of exactly the bytes the host
codec wrote, and the written length equals the precomputed byte length
(otherwise the mismatch branch would have returned an error). -/
theorem produce_ok_on_string (codec : HostCodec) (arg : JSArg)
    (s argName : String) (encoding : NodeEncoding) (checkEmpty : Bool)
    (result : JSArg)
    (hs : arg.stringContent = some s)
    (henc : encoding ≠ .BUFFER)
    (hok : ProduceBuffer codec arg argName encoding checkEmpty = .ok result) :
    result = .buffer (codec.decodeWrite (codec.decodeBytes encoding s) encoding s) ∧
    (codec.decodeWrite (codec.decodeBytes encoding s) encoding s).length =
      codec.decodeBytes encoding s := by
  cases arg <;> simp only [JSArg.stringContent] at hs <;>
    try exact Option.noConfusion hs
  all_goals
    (rename_i t;
     obtain rfl : s = t := (Option.some.inj hs).symm;
     simp only [ProduceBuffer, JSArg.isBufferInstance, JSArg.isString,
                JSArg.isStringObject, JSArg.stringContent, JSArg.bufferLength,
                henc] at hok;
     by_cases hlen : (codec.decodeWrite (codec.decodeBytes encoding s)
         encoding s).length = codec.decodeBytes encoding s)
  case pos | pos =>
    rw [if_neg (not_not_intro hlen)] at hok
    by_cases hce : checkEmpty = true ∧
        (codec.decodeWrite (codec.decodeBytes encoding s) encoding s).length = 0
    · rw [if_pos hce] at hok
      exact ProduceResult.noConfusion hok
    · rw [if_neg hce] at hok
      injection hok with h
      subst h
      exact ⟨rfl, hlen⟩
  case neg | neg =>
    rw [if_pos hlen] at hok
    exact ProduceResult.noConfusion hok

/-- C9: when `ProduceBuffer` succeeds on a string-like argument under a
non-raw encoding, the resolved argument is a derived buffer whose length
equals the byte length the host codec assigns to the string, and —
whenever the host codec round-trips on that string (decoding what it
wrote reproduces the string; a property of the external host runtime,
not of this repository) — decoding the buffer's content with the same
encoding reproduces the original string. -/
theorem C9_string_roundtrip (codec : HostCodec)
    (decode : NodeEncoding → List Nat → String)
    (arg : JSArg) (s : String) (argName : String) (encoding : NodeEncoding)
    (checkEmpty : Bool) (result : JSArg)
    (hs : arg.stringContent = some s)
    (henc : encoding ≠ .BUFFER)
    (hround : decode encoding
        (codec.decodeWrite (codec.decodeBytes encoding s) encoding s) = s)
    (hok : ProduceBuffer codec arg argName encoding checkEmpty = .ok result) :
    ∃ w : List Nat, result = .buffer w ∧
      w.length = codec.decodeBytes encoding s ∧
      decode encoding w = s := by
  obtain ⟨hres, hlen⟩ :=
    produce_ok_on_string codec arg s argName encoding checkEmpty result
      hs henc hok
  exact ⟨codec.decodeWrite (codec.decodeBytes encoding s) encoding s,
         hres, hlen, hround⟩

/-- C9 witness: the concrete single-byte codec on the string "ab". -/
theorem C9_string_roundtrip_witness :
    ∃ w : List Nat, JSArg.buffer [97, 98] = .buffer w ∧
      w.length = latin1Codec.decodeBytes .BINARY "ab" ∧
      (fun _ bytes => latin1Decode bytes : NodeEncoding → List Nat → String)
        .BINARY w = "ab" :=
  C9_string_roundtrip latin1Codec (fun _ bytes => latin1Decode bytes)
    (.str "ab") "ab" "password" .BINARY true (.buffer [97, 98])
    rfl (by decide) (by decide) (by decide)

end NodeScrypt
